import Mathlib

/-!
# Verification of the content-generation subsystem (Chunks web app)

Shallow embedding of the TypeScript sources:

* `src/src/services/contentGenerator.ts` — two stitched variants:
  the config-parameterized variant (namespace `CG1`) and the
  Deepseek/Unsplash variant (top-level definitions).
* `src/src/services/llm/openai.ts` — the three provider transports and
  `LLMService.sendMessage`.
* `src/src/components/pages/ChatbotPage.tsx` — `handleSend` and
  `generateFallbackResponse`.

Modelling conventions:

* JS strings are modelled as `List Char` in the string-processing layer
  (trim / fence stripping / JSON decoding) and as Lean `String` elsewhere.
* `JSON.parse` (a JS builtin) is modelled by an executable recursive-descent
  parser `jsonParse` over the JSON grammar (numbers as rationals; the JS
  engine parses doubles, but every number the contracts use is a small
  integer, so rationals are an exact model on the inputs of interest).
  A `throw` from `JSON.parse` is modelled as `Except.error`.
* Network calls (provider dispatch, Unsplash lookup) are modelled at the
  request boundary: the provider's response text is an explicit input, and
  the image lookup is an explicit fallible function argument.
* JS field access on parsed values yields `undefined` when the field is
  absent; this is modelled as `Option Json` with `none` for `undefined`.
  Runtime entities therefore carry `Option Json` fields even where the TS
  interface declares `number`/`string`: TypeScript performs no runtime
  validation, so the constructed objects can really hold `undefined`.
-/

/-- JSON values, as produced by `JSON.parse`. Numbers are modelled as
rationals (see the header comment). -/
inductive Json where
  | null : Json
  | bool (b : Bool) : Json
  | num (q : Rat) : Json
  | str (s : String) : Json
  | arr (elems : List Json) : Json
  | obj (fields : List (String × Json)) : Json

/-- JS property access `v.key` on a parsed value: `none` models `undefined`
(not an object, or key absent). -/
def Json.lookup (j : Json) (key : String) : Option Json :=
  match j with
  | .obj fields => List.lookup key fields
  | _ => none

/-- JS truthiness of a value that may be `undefined` (`none`). -/
def jsTruthy : Option Json → Bool
  | none => false
  | some .null => false
  | some (.bool b) => b
  | some (.num q) => decide (q ≠ 0)
  | some (.str s) => !s.isEmpty
  | some (.arr _) => true
  | some (.obj _) => true

/-- JS `a || b` on possibly-`undefined` values. -/
def jsOr (a b : Option Json) : Option Json :=
  if jsTruthy a then a else b

/-- JS string coercion, applied where a keyword value reaches URL/template
construction. Only the `str` and `undefined` cases are exercised by the
pipelines under verification; the remaining cases follow JS `String(v)`
(the array case is approximated — never reached by any claim). -/
def jsToString : Option Json → String
  | none => "undefined"
  | some .null => "null"
  | some (.bool true) => "true"
  | some (.bool false) => "false"
  | some (.num q) => toString q
  | some (.str s) => s
  | some (.arr _) => ""
  | some (.obj _) => "[object Object]"

/-- Whitespace accepted between JSON tokens (also the characters relevant
to `String.prototype.trim` on the inputs of interest). -/
def isWsChar (c : Char) : Bool :=
  c = ' ' || c = '\t' || c = '\n' || c = '\r'

def skipWs (cs : List Char) : List Char :=
  cs.dropWhile isWsChar

/-- Body of a JSON string literal, after the opening quote. Returns the
decoded characters and the rest of the input after the closing quote. -/
def parseStringRest : List Char → Option (List Char × List Char)
  | [] => none
  | '"' :: rest => some ([], rest)
  | '\\' :: e :: rest =>
    match e with
    | '"' => (parseStringRest rest).map (fun p => ('"' :: p.1, p.2))
    | '\\' => (parseStringRest rest).map (fun p => ('\\' :: p.1, p.2))
    | '/' => (parseStringRest rest).map (fun p => ('/' :: p.1, p.2))
    | 'n' => (parseStringRest rest).map (fun p => ('\n' :: p.1, p.2))
    | 't' => (parseStringRest rest).map (fun p => ('\t' :: p.1, p.2))
    | 'r' => (parseStringRest rest).map (fun p => ('\r' :: p.1, p.2))
    | 'b' => (parseStringRest rest).map (fun p => ('\x08' :: p.1, p.2))
    | 'f' => (parseStringRest rest).map (fun p => ('\x0c' :: p.1, p.2))
    | 'u' =>
      match rest with
      | h1 :: h2 :: h3 :: h4 :: rest2 =>
        if h1.isDigit || ('a' ≤ h1.toLower && h1.toLower ≤ 'f') then
          if h2.isDigit || ('a' ≤ h2.toLower && h2.toLower ≤ 'f') then
            if h3.isDigit || ('a' ≤ h3.toLower && h3.toLower ≤ 'f') then
              if h4.isDigit || ('a' ≤ h4.toLower && h4.toLower ≤ 'f') then
                let hv : Char → Nat := fun c =>
                  if c.isDigit then c.toNat - '0'.toNat
                  else c.toLower.toNat - 'a'.toNat + 10
                let code := ((hv h1 * 16 + hv h2) * 16 + hv h3) * 16 + hv h4
                (parseStringRest rest2).map (fun p => (Char.ofNat code :: p.1, p.2))
              else none
            else none
          else none
        else none
      | _ => none
    | _ => none
  | c :: rest => (parseStringRest rest).map (fun p => (c :: p.1, p.2))

/-- Consume a run of decimal digits, accumulating their value. -/
def parseDigits (acc : Nat) (count : Nat) : List Char → Nat × Nat × List Char
  | c :: rest =>
    if c.isDigit then parseDigits (acc * 10 + (c.toNat - '0'.toNat)) (count + 1) rest
    else (acc, count, c :: rest)
  | [] => (acc, count, [])

/-- JSON number literal (sign, integer part without leading zeros,
optional fraction, optional exponent), evaluated exactly as a rational. -/
def parseNumber (cs : List Char) : Option (Rat × List Char) :=
  let (neg, cs1) :=
    match cs with
    | '-' :: rest => (true, rest)
    | _ => (false, cs)
  match cs1 with
  | c :: _ =>
    if c.isDigit then
      let (ip, ic, cs2) := parseDigits 0 0 cs1
      if ic = 0 then none
      else if ic > 1 && c = '0' then none
      else
        let (mant, fd, cs3) :=
          match cs2 with
          | '.' :: rest =>
            let (fp, fc, cs3) := parseDigits 0 0 rest
            if fc = 0 then (ip, 0, '.' :: rest) else (ip * 10 ^ fc + fp, fc, cs3)
          | _ => (ip, 0, cs2)
        let intVal : Int := if neg then -(mant : Int) else (mant : Int)
        match cs3 with
        | '.' :: _ => none
        | e :: rest2 =>
          if e = 'e' || e = 'E' then
            let (eneg, rest3) :=
              match rest2 with
              | '+' :: r => (false, r)
              | '-' :: r => (true, r)
              | _ => (false, rest2)
            let (ev, ec, cs4) := parseDigits 0 0 rest3
            if ec = 0 then none
            else
              let scaled : Rat :=
                if eneg then
                  if fd + ev = 0 then (intVal : Rat)
                  else (intVal : Rat) / ((10 : Rat) ^ (fd + ev))
                else if fd = 0 then ((intVal * 10 ^ ev : Int) : Rat)
                else ((intVal * 10 ^ ev : Int) : Rat) / ((10 : Rat) ^ fd)
              some (scaled, cs4)
          else if fd = 0 then some ((intVal : Rat), e :: rest2)
          else some ((intVal : Rat) / ((10 : Rat) ^ fd), e :: rest2)
        | [] =>
          if fd = 0 then some ((intVal : Rat), [])
          else some ((intVal : Rat) / ((10 : Rat) ^ fd), [])
    else none
  | [] => none

mutual

/-- Recursive-descent JSON value parser (fuel-indexed for termination). -/
def parseVal : Nat → List Char → Option (Json × List Char)
  | 0, _ => none
  | fuel + 1, cs =>
    match skipWs cs with
    | 'n' :: 'u' :: 'l' :: 'l' :: rest => some (.null, rest)
    | 't' :: 'r' :: 'u' :: 'e' :: rest => some (.bool true, rest)
    | 'f' :: 'a' :: 'l' :: 's' :: 'e' :: rest => some (.bool false, rest)
    | '"' :: rest => (parseStringRest rest).map (fun p => (.str ⟨p.1⟩, p.2))
    | '[' :: rest =>
      (match skipWs rest with
       | ']' :: rest2 => some (.arr [], rest2)
       | cs2 => (parseArrItems fuel cs2).map (fun p => (.arr p.1, p.2)))
    | '{' :: rest =>
      (match skipWs rest with
       | '}' :: rest2 => some (.obj [], rest2)
       | cs2 => (parseObjItems fuel cs2).map (fun p => (.obj p.1, p.2)))
    | cs2 => (parseNumber cs2).map (fun p => (.num p.1, p.2))

/-- Comma-separated array elements followed by `]`. -/
def parseArrItems : Nat → List Char → Option (List Json × List Char)
  | 0, _ => none
  | fuel + 1, cs => do
    let (v, rest) ← parseVal fuel cs
    match skipWs rest with
    | ',' :: rest2 => do
      let (vs, rest3) ← parseArrItems fuel (skipWs rest2)
      pure (v :: vs, rest3)
    | ']' :: rest2 => pure ([v], rest2)
    | _ => none

/-- Comma-separated `"key": value` members followed by `\x7d`. -/
def parseObjItems : Nat → List Char → Option (List (String × Json) × List Char)
  | 0, _ => none
  | fuel + 1, cs =>
    match skipWs cs with
    | '"' :: rest => do
      let (key, rest2) ← parseStringRest rest
      match skipWs rest2 with
      | ':' :: rest3 => do
        let (v, rest4) ← parseVal fuel (skipWs rest3)
        match skipWs rest4 with
        | ',' :: rest5 => do
          let (fs, rest6) ← parseObjItems fuel (skipWs rest5)
          pure ((⟨key⟩, v) :: fs, rest6)
        | '}' :: rest5 => pure ([(⟨key⟩, v)], rest5)
        | _ => none
      | _ => none
    | _ => none

end

/-- Model of the JS builtin `JSON.parse`: `none` models a thrown
`SyntaxError` (invalid document or trailing content). -/
def jsonParse (cs : List Char) : Option Json :=
  match parseVal (2 * cs.length + 2) cs with
  | some (v, rest) => if skipWs rest = [] then some v else none
  | none => none

/-! ## Fence stripping and `parseJSON` (`contentGenerator.ts`, both variants) -/

/-- `cleaned.startsWith('```')` in `parseJSON`. -/
def startsWithFence : List Char → Bool
  | '\x60' :: '\x60' :: '\x60' :: _ => true
  | _ => false

/-- The replace of `/^```(?:json)?\n?/` by the empty string: the match
alternatives in greedy-precedence order. -/
def stripPrefixFence : List Char → List Char
  | '\x60' :: '\x60' :: '\x60' :: 'j' :: 's' :: 'o' :: 'n' :: '\n' :: rest => rest
  | '\x60' :: '\x60' :: '\x60' :: 'j' :: 's' :: 'o' :: 'n' :: rest => rest
  | '\x60' :: '\x60' :: '\x60' :: '\n' :: rest => rest
  | '\x60' :: '\x60' :: '\x60' :: rest => rest
  | cs => cs

/-- Auxiliary for the suffix replace: the reversed suffix alternatives of
`/\n?```$/` in greedy-precedence order. -/
def stripRevFence : List Char → List Char
  | '\x60' :: '\x60' :: '\x60' :: '\n' :: rest => rest
  | '\x60' :: '\x60' :: '\x60' :: rest => rest
  | cs => cs

/-- The replace of `/\n?```$/` by the empty string. -/
def stripSuffixFence (cs : List Char) : List Char :=
  (stripRevFence cs.reverse).reverse

/-- `String.prototype.trim` (ASCII whitespace; the JS builtin also trims a
few Unicode space characters that never occur in the contracts here). -/
def jsTrim (cs : List Char) : List Char :=
  ((cs.dropWhile isWsChar).reverse.dropWhile isWsChar).reverse

/-- The preprocessing of `parseJSON`: trim, then strip markdown code
fences when the trimmed text starts with one. -/
def stripFences (response : List Char) : List Char :=
  let cleaned := jsTrim response
  if startsWithFence cleaned then stripSuffixFence (stripPrefixFence cleaned)
  else cleaned

/-- The `SyntaxError` thrown by `JSON.parse` on invalid input. -/
def jsonSyntaxError : String := "SyntaxError: Unexpected token in JSON"

/-- `parseJSON` from `contentGenerator.ts` (identical in both variants):
trim, strip fences, `JSON.parse`. A throw is modelled as `Except.error`.
The function performs no validation beyond JSON well-formedness. -/
def parseJSON (response : List Char) : Except String Json :=
  match jsonParse (stripFences response) with
  | some v => Except.ok v
  | none => Except.error jsonSyntaxError

/-! ## Image resolution (Deepseek/Unsplash variant)

`getCachedPhotoUrl` and `getFallbackImage` live in
`src/services/unsplash.ts`, which is not among the provided sources; they
are modelled from the spec (§4.5). The fallible external lookup
(`getCachedPhotoUrl`) is passed as an explicit function argument
`lookup : String → Except String String` wherever it is used. -/

/-- Modelled from the spec: `getFallbackImage` of `src/services/unsplash.ts`
is not among the provided sources. Spec §4.5: on any error the resolver
"returns a deterministic fallback URL derived purely from `keywords`
(same input → same fallback output, no network dependency)" — modelled as
a pure function of the keyword string. -/
def getFallbackImage (keywords : String) : String :=
  "https://source.unsplash.com/800x600/?" ++ keywords

/-- `getImageForKeywords` (`contentGenerator.ts`, Unsplash variant):
try the external lookup, and on any error return the deterministic
fallback. Total by construction — the model's counterpart of
"never raises". -/
def getImageForKeywords (lookup : String → Except String String)
    (keywords : String) : String :=
  match lookup keywords with
  | .ok url => url
  | .error _ => getFallbackImage keywords

/-! ## Domain entities as constructed at runtime

The TS interfaces declare `id: number`, `title: string`, …, but the
pipelines copy fields out of unvalidated parsed JSON, so at runtime a field
can hold `undefined`; hence `Option Json` fields. `createdAt: new Date()`
is an impure timestamp and is not modelled. -/

structure Story where
  id : Option Json
  title : Option Json
  description : Option Json
  image : String
  imageKeywords : Option Json
  relatedUrls : Option Json

structure Chunk where
  id : Option Json
  title : Option Json
  content : Option Json
  image : String
  imageKeywords : Option Json

/-! ## Story and chunk pipelines (Deepseek/Unsplash variant)

The `llm.generateStories` / `llm.generateChunks` network call is modelled
at its boundary: the provider's raw response text is an explicit input.
A provider failure propagates unchanged through the `try`/`catch` (which
rethrows), so it is outside the parsing/image portion modelled here. -/

/-- The body of `parsed.map(async (item) => ...)` in
`generateStoriesFromHistory` (Unsplash variant). -/
def storyFromRecord (lookup : String → Except String String)
    (item : Json) : Story :=
  let keywords := jsOr (item.lookup "imageKeywords")
    (jsOr (item.lookup "image") (item.lookup "title"))
  { id := item.lookup "id"
    title := item.lookup "title"
    description := item.lookup "description"
    image := getImageForKeywords lookup (jsToString keywords)
    imageKeywords := keywords
    relatedUrls := jsOr (item.lookup "relatedUrls") (some (Json.arr [])) }

/-- `generateStoriesFromHistory` (Unsplash variant), after the provider
call: parse, then fan out image resolution over the records
(`Promise.all` over `parsed.map`, order-preserving). Calling `.map` on a
parsed value that is not an array throws a `TypeError` inside the `try`
block; the `catch` rethrows it. -/
def generateStoriesFromHistory (lookup : String → Except String String)
    (response : List Char) : Except String (List Story) :=
  match parseJSON response with
  | .error e => .error e
  | .ok (.arr items) => .ok (items.map (storyFromRecord lookup))
  | .ok _ => .error "TypeError: parsed.map is not a function"

/-- The body of `parsed.map(async (item) => ...)` in
`generateChunksFromStory` (Unsplash variant). -/
def chunkFromRecord (lookup : String → Except String String)
    (story : Story) (item : Json) : Chunk :=
  let keywords := jsOr (item.lookup "imageKeywords")
    (jsOr (item.lookup "image") (jsOr story.imageKeywords story.title))
  { id := item.lookup "id"
    title := item.lookup "title"
    content := item.lookup "content"
    image := getImageForKeywords lookup (jsToString keywords)
    imageKeywords := keywords }

/-- `generateChunksFromStory` (Unsplash variant), after the provider call:
parse, then fan out per-chunk image resolution over the records. -/
def generateChunksFromStory (lookup : String → Except String String)
    (story : Story) (response : List Char) : Except String (List Chunk) :=
  match parseJSON response with
  | .error e => .error e
  | .ok (.arr items) => .ok (items.map (chunkFromRecord lookup story))
  | .ok _ => .error "TypeError: parsed.map is not a function"

namespace CG1

/-! The config-parameterized variant of `contentGenerator.ts` (first
document in the stitched file). Its chunk objects have no `imageKeywords`
key. -/

structure Chunk where
  id : Option Json
  title : Option Json
  content : Option Json
  image : String

/-- The body of `parsed.map(item => ...)` in the config-parameterized
`generateChunksFromStory`: every chunk reuses the story's image. -/
def chunkFromRecord (story : Story) (item : Json) : Chunk :=
  { id := item.lookup "id"
    title := item.lookup "title"
    content := item.lookup "content"
    image := story.image }

/-- Config-parameterized `generateChunksFromStory` (lines 61–92), after
the `llm.generateChunks` provider call (response text as input). -/
def generateChunksFromStory (story : Story) (response : List Char) :
    Except String (List Chunk) :=
  match parseJSON response with
  | .error e => .error e
  | .ok (.arr items) => .ok (items.map (chunkFromRecord story))
  | .ok _ => .error "TypeError: parsed.map is not a function"

end CG1

/-! ## Provider transports and dispatch (`llm/openai.ts` stitched file) -/

/-- `LLMConfig` as used by the transports and pages
(`{provider, apiKey, model?}`). -/
structure LLMConfig where
  provider : String
  apiKey : String
  model : Option String

/-- JS `a || d` for an optional string against a default (an empty string
is falsy and also falls back). -/
def jsOrStr (a : Option String) (d : String) : String :=
  match a with
  | some s => if s.isEmpty then d else s
  | none => d

/-- `{role, content}` message shape shared by the OpenAI and Anthropic
transports (the role union types are modelled as strings). -/
structure WireMessage where
  role : String
  content : String

def WireMessage.toJson (m : WireMessage) : Json :=
  Json.obj [("role", .str m.role), ("content", .str m.content)]

/-- A provider HTTP request at the network boundary: which endpoint is
called and with which JSON body. Constructing this value is the model's
counterpart of issuing the `fetch`; headers and the response path are
beyond the boundary. -/
inductive ProviderRequest where
  | openai (url : String) (body : Json)
  | anthropic (url : String) (body : Json)
  | gemini (url : String) (body : Json)

/-- The JSON body of a provider request. -/
def ProviderRequest.body : ProviderRequest → Json
  | .openai _ b => b
  | .anthropic _ b => b
  | .gemini _ b => b

/-- `sendToOpenAI`, modelled up to the `fetch` boundary: the exact request
body it serializes. -/
def sendToOpenAI (messages : List WireMessage) (config : LLMConfig) :
    ProviderRequest :=
  .openai "https://api.openai.com/v1/chat/completions"
    (Json.obj [
      ("model", .str (jsOrStr config.model "gpt-4o-mini")),
      ("messages", .arr (messages.map WireMessage.toJson)),
      ("temperature", .num (7 / 10)),
      ("max_tokens", .num 2000)])

/-- `sendToAnthropic`, modelled up to the `fetch` boundary. Its body has
`model`, `max_tokens`, `system`, `messages` — and no temperature field. -/
def sendToAnthropic (systemPrompt : String) (messages : List WireMessage)
    (config : LLMConfig) : ProviderRequest :=
  .anthropic "https://api.anthropic.com/v1/messages"
    (Json.obj [
      ("model", .str (jsOrStr config.model "claude-3-5-sonnet-20241022")),
      ("max_tokens", .num 2000),
      ("system", .str systemPrompt),
      ("messages", .arr (messages.map WireMessage.toJson))])

/-- `sendToGemini`, modelled up to the `fetch` boundary (model and key are
interpolated into the URL). -/
def sendToGemini (prompt : String) (config : LLMConfig) : ProviderRequest :=
  .gemini ("https://generativelanguage.googleapis.com/v1beta/models/"
      ++ jsOrStr config.model "gemini-1.5-flash"
      ++ ":generateContent?key=" ++ config.apiKey)
    (Json.obj [
      ("contents", .arr [Json.obj [("parts", .arr [Json.obj [("text", .str prompt)]])]]),
      ("generationConfig", Json.obj [
        ("temperature", .num (7 / 10)),
        ("maxOutputTokens", .num 2000)])])

namespace LLMService

/-- `LLMService.sendMessage`: route the prompt to the transport selected by
`config.provider`. The `default` branch throws
`Unknown provider: ${provider}` before any transport is invoked, so an
unsupported provider yields `Except.error` and no `ProviderRequest` — the
model's counterpart of "no network call is issued". The `systemPrompt ?`
ternaries use JS truthiness (an empty string falls through). -/
def sendMessage (config : LLMConfig) (prompt : String)
    (systemPrompt : Option String) : Except String ProviderRequest :=
  match config.provider with
  | "openai" =>
    .ok (sendToOpenAI
      (match systemPrompt with
       | some sp =>
         if sp.isEmpty then [{ role := "user", content := prompt }]
         else [{ role := "system", content := sp }, { role := "user", content := prompt }]
       | none => [{ role := "user", content := prompt }])
      config)
  | "anthropic" =>
    .ok (sendToAnthropic (jsOrStr systemPrompt "You are a helpful assistant.")
      [{ role := "user", content := prompt }] config)
  | "gemini" =>
    .ok (sendToGemini
      (match systemPrompt with
       | some sp => if sp.isEmpty then prompt else sp ++ "\n\n" ++ prompt
       | none => prompt)
      config)
  | other => .error ("Unknown provider: " ++ other)

end LLMService

/-! ## Chat flow of `ChatbotPage.tsx` -/

/-- Contiguous-substring test on character lists. -/
def listContains (needle : List Char) : List Char → Bool
  | [] => needle.isEmpty
  | c :: rest => needle.isPrefixOf (c :: rest) || listContains needle rest

/-- JS `haystack.includes(needle)`. -/
def jsIncludes (haystack needle : String) : Bool :=
  listContains needle.toList haystack.toList

/-- JS `s.toLowerCase()` (character-wise, as for the ASCII inputs here). -/
def jsToLowerCase (s : String) : String :=
  ⟨s.toList.map Char.toLower⟩

/-- `generateFallbackResponse` (`ChatbotPage.tsx` lines 133–153): the
canned keyword-triggered replies used when no provider is configured. -/
def generateFallbackResponse (userMessage storyTitle : String) : String :=
  let lowerMessage := jsToLowerCase userMessage
  if jsIncludes lowerMessage "summary" || jsIncludes lowerMessage "summarize" then
    "Great question! The key takeaway from \"" ++ storyTitle
      ++ "\" is understanding how different perspectives shape our view of this topic. The chunks you read covered various aspects from historical context to future trends."
  else if jsIncludes lowerMessage "why" || jsIncludes lowerMessage "reason" then
    "That\x27s an insightful question! This topic is important because it impacts how we think about and approach related concepts. Each chunk revealed different layers of understanding."
  else if jsIncludes lowerMessage "how" || jsIncludes lowerMessage "what" then
    "Excellent question! Based on the chunks you\x27ve read, there are multiple approaches to this. The real-world applications we covered show practical ways this manifests in everyday life."
  else if jsIncludes lowerMessage "example" then
    "From what you\x27ve learned, you can apply these insights in various scenarios. The expert perspectives shared some compelling examples of implementation."
  else
    "That\x27s a thought-provoking question about \"" ++ storyTitle
      ++ "\". Based on the chunks you\x27ve read, this connects to the broader themes of understanding context, expert insights, and real-world applications. What specific aspect interests you most?"

/-- The reply a chat turn produces: either a dispatch to
`generateChatResponse` (which goes to the network through the configured
provider) or the locally computed fallback text. -/
inductive ChatTurnResponse where
  | llmRequest (config : LLMConfig) (userMessage : String)
  | fallback (text : String)

/-- The response-selection logic of `handleSend` (`ChatbotPage.tsx` lines
90–108): with a stored provider config the message goes to the LLM;
without one, `generateFallbackResponse` computes the reply locally.
The stored config (`storageService.getApiConfig()`) is an explicit
argument. -/
def chatResponseFor (config : Option LLMConfig) (input : String)
    (storyTitle : String) : ChatTurnResponse :=
  match config with
  | some cfg => .llmRequest cfg input
  | none => .fallback (generateFallbackResponse input storyTitle)

/-! ## Shared helper lemmas and concrete fixtures -/

/-- If the underlying decode succeeds, `parseJSON` returns its value. -/
theorem parseJSON_ok_of_jsonParse (response : List Char) (v : Json)
    (h : jsonParse (stripFences response) = some v) :
    parseJSON response = Except.ok v := by
  simp [parseJSON, h]

/-- If `parseJSON` succeeds, the underlying decode produced that value. -/
theorem jsonParse_of_parseJSON_ok (response : List Char) (v : Json)
    (h : parseJSON response = Except.ok v) :
    jsonParse (stripFences response) = some v := by
  unfold parseJSON at h
  cases hj : jsonParse (stripFences response) with
  | some w => rw [hj] at h; cases h; rfl
  | none => rw [hj] at h; cases h

/-- A lookup that always fails, standing in for a total Unsplash outage. -/
def offlineLookup : String → Except String String :=
  fun _ => .error "network unavailable"

/-- A stored story with no `imageKeywords`, used as chunk-flow input. -/
def storyNoKeywords : Story :=
  { id := some (.num 1)
    title := some (.str "ST")
    description := some (.str "D")
    image := "https://img.example/st"
    imageKeywords := none
    relatedUrls := some (.arr []) }

/-! ## Claims -/

/-- C1 (confirmed): image resolution never fails and never aborts a batch.
`getImageForKeywords` is total (it always returns a URL string); on any
lookup error it returns the deterministic fallback derived purely from the
keywords, so the result is independent of which error occurred; and the
per-item fan-in of `generateStoriesFromHistory` therefore cannot turn a
successfully parsed batch into a failure — the flow succeeds with one story
per record no matter how the lookup behaves. -/
theorem getImageForKeywords_total_and_deterministic :
    (∀ (lookup : String → Except String String) (kw e : String),
        lookup kw = .error e →
        getImageForKeywords lookup kw = getFallbackImage kw) ∧
    (∀ (lookup lookup' : String → Except String String) (kw e e' : String),
        lookup kw = .error e → lookup' kw = .error e' →
        getImageForKeywords lookup kw = getImageForKeywords lookup' kw) ∧
    (∀ (lookup : String → Except String String) (response : List Char)
        (items : List Json),
        parseJSON response = Except.ok (Json.arr items) →
        ∃ stories, generateStoriesFromHistory lookup response = Except.ok stories ∧
          stories.length = items.length) := by
  refine ⟨?_, ?_, ?_⟩
  · intro lookup kw e h
    simp [getImageForKeywords, h]
  · intro lookup lookup' kw e e' h h'
    simp [getImageForKeywords, h, h']
  · intro lookup response items h
    exact ⟨items.map (storyFromRecord lookup),
      by simp [generateStoriesFromHistory, h], by simp⟩

/-- Closed instance of the C1 theorem: a total outage still resolves the
fallback image and a one-record batch still succeeds with one story. -/
theorem getImageForKeywords_total_and_deterministic_witness :
    getImageForKeywords offlineLookup "cats" = getFallbackImage "cats" ∧
    (∃ stories,
        generateStoriesFromHistory offlineLookup "[\x7b\x7d]".toList
          = Except.ok stories ∧ stories.length = 1) :=
  ⟨getImageForKeywords_total_and_deterministic.1 offlineLookup "cats"
      "network unavailable" rfl,
   getImageForKeywords_total_and_deterministic.2.2 offlineLookup
      "[\x7b\x7d]".toList [Json.obj []] rfl⟩

/-- C2 (amended): both chunk pipelines return exactly one chunk per provider
record, in order — they never truncate a long list to 5 and never invent
missing chunks. -/
theorem generateChunksFromStory_one_chunk_per_record
    (lookup : String → Except String String) (story : Story)
    (response : List Char) (items : List Json)
    (h : parseJSON response = Except.ok (Json.arr items)) :
    (∃ chunks, generateChunksFromStory lookup story response = Except.ok chunks ∧
        chunks.length = items.length) ∧
    (∃ chunks, CG1.generateChunksFromStory story response = Except.ok chunks ∧
        chunks.length = items.length) :=
  ⟨⟨items.map (chunkFromRecord lookup story),
      by simp [generateChunksFromStory, h], by simp⟩,
   ⟨items.map (CG1.chunkFromRecord story),
      by simp [CG1.generateChunksFromStory, h], by simp⟩⟩

/-- Closed instance of the C2 theorem at a two-record response. -/
theorem generateChunksFromStory_one_chunk_per_record_witness :
    (∃ chunks,
        generateChunksFromStory offlineLookup storyNoKeywords
            "[\x7b\x7d,\x7b\x7d]".toList = Except.ok chunks ∧
          chunks.length = 2) ∧
    (∃ chunks,
        CG1.generateChunksFromStory storyNoKeywords
            "[\x7b\x7d,\x7b\x7d]".toList = Except.ok chunks ∧
          chunks.length = 2) :=
  generateChunksFromStory_one_chunk_per_record offlineLookup storyNoKeywords
    "[\x7b\x7d,\x7b\x7d]".toList [Json.obj [], Json.obj []] rfl

/-- A six-record provider response for the chunk flow. -/
def sixRecordResponse : List Char :=
  "[\x7b\"id\":1\x7d,\x7b\"id\":2\x7d,\x7b\"id\":3\x7d,\x7b\"id\":4\x7d,\x7b\"id\":5\x7d,\x7b\"id\":6\x7d]".toList

/-- C2 counterexample: with six chunk records the pipeline returns six
chunks — extras beyond 5 are not truncated, refuting the claim as stated. -/
theorem generateChunksFromStory_no_truncation_counterexample :
    (generateChunksFromStory offlineLookup storyNoKeywords sixRecordResponse).map
        List.length = Except.ok 6 ∧
    (CG1.generateChunksFromStory storyNoKeywords sixRecordResponse).map
        List.length = Except.ok 6 :=
  ⟨rfl, rfl⟩

/-- C3 (confirmed): a provider identifier outside
{openai, anthropic, gemini} makes `LLMService.sendMessage` fail with the
`Unknown provider` error; no `ProviderRequest` is constructed, so no
network call is issued. -/
theorem sendMessage_unknown_provider (config : LLMConfig) (prompt : String)
    (systemPrompt : Option String)
    (h1 : config.provider ≠ "openai") (h2 : config.provider ≠ "anthropic")
    (h3 : config.provider ≠ "gemini") :
    LLMService.sendMessage config prompt systemPrompt
      = Except.error ("Unknown provider: " ++ config.provider) := by
  unfold LLMService.sendMessage
  split <;> simp_all

/-- Closed instance of the C3 theorem at the provider string "deepseek". -/
theorem sendMessage_unknown_provider_witness :
    LLMService.sendMessage ⟨"deepseek", "key", none⟩ "hello" none
      = Except.error "Unknown provider: deepseek" :=
  sendMessage_unknown_provider ⟨"deepseek", "key", none⟩ "hello" none
    (by decide) (by decide) (by decide)

/-- Trimming is the identity on a fenced response: it begins and ends with
a backtick, which is not whitespace. -/
theorem jsTrim_fenced (opener : List Char) (s : List Char)
    (hop : ∃ t, opener = '\x60' :: t) :
    jsTrim (opener ++ s ++ "\n\x60\x60\x60".toList)
      = opener ++ s ++ "\n\x60\x60\x60".toList := by
  obtain ⟨t, rfl⟩ := hop
  unfold jsTrim
  have h1 : (('\x60' :: t ++ s ++ "\n\x60\x60\x60".toList).dropWhile isWsChar)
      = '\x60' :: t ++ s ++ "\n\x60\x60\x60".toList := by
    simp [List.dropWhile, isWsChar]
  rw [h1]
  have h2 : ('\x60' :: t ++ s ++ "\n\x60\x60\x60".toList).reverse.dropWhile isWsChar
      = ('\x60' :: t ++ s ++ "\n\x60\x60\x60".toList).reverse := by
    rw [show ('\x60' :: t ++ s ++ "\n\x60\x60\x60".toList)
        = ('\x60' :: t ++ s) ++ "\n\x60\x60\x60".toList from by simp,
      List.reverse_append]
    rfl
  rw [h2, List.reverse_reverse]

/-- Stripping the closing fence undoes appending it. -/
theorem stripSuffixFence_append (s : List Char) :
    stripSuffixFence (s ++ "\n\x60\x60\x60".toList) = s := by
  unfold stripSuffixFence
  rw [List.reverse_append]
  rw [show stripRevFence ("\n\x60\x60\x60".toList.reverse ++ s.reverse)
      = s.reverse from rfl]
  exact List.reverse_reverse s

/-- C4 (confirmed): for a well-formed JSON payload (a trimmed text that is
not itself fenced and decodes directly), wrapping it in a markdown code
fence — with the `json` language tag or without one — does not change the
result of `parseJSON`: fence stripping is lossless. -/
theorem parseJSON_fence_lossless (s : List Char) (v : Json)
    (htrim : jsTrim s = s) (hnf : startsWithFence s = false)
    (hwf : parseJSON s = Except.ok v) :
    parseJSON ("\x60\x60\x60json\n".toList ++ s ++ "\n\x60\x60\x60".toList)
        = Except.ok v ∧
    parseJSON ("\x60\x60\x60\n".toList ++ s ++ "\n\x60\x60\x60".toList)
        = Except.ok v := by
  have hdirect : jsonParse s = some v := by
    have := jsonParse_of_parseJSON_ok s v hwf
    rwa [show stripFences s = s from by simp [stripFences, htrim, hnf]] at this
  constructor
  · apply parseJSON_ok_of_jsonParse
    rw [show stripFences ("\x60\x60\x60json\n".toList ++ s ++ "\n\x60\x60\x60".toList)
        = s from ?_]
    · exact hdirect
    · simp only [stripFences]
      rw [jsTrim_fenced "\x60\x60\x60json\n".toList s ⟨_, rfl⟩]
      rw [show startsWithFence
          ("\x60\x60\x60json\n".toList ++ s ++ "\n\x60\x60\x60".toList) = true from rfl]
      simp only [if_true]
      rw [show stripPrefixFence
          ("\x60\x60\x60json\n".toList ++ s ++ "\n\x60\x60\x60".toList)
          = s ++ "\n\x60\x60\x60".toList from rfl]
      exact stripSuffixFence_append s
  · apply parseJSON_ok_of_jsonParse
    rw [show stripFences ("\x60\x60\x60\n".toList ++ s ++ "\n\x60\x60\x60".toList)
        = s from ?_]
    · exact hdirect
    · simp only [stripFences]
      rw [jsTrim_fenced "\x60\x60\x60\n".toList s ⟨_, rfl⟩]
      rw [show startsWithFence
          ("\x60\x60\x60\n".toList ++ s ++ "\n\x60\x60\x60".toList) = true from rfl]
      simp only [if_true]
      rw [show stripPrefixFence
          ("\x60\x60\x60\n".toList ++ s ++ "\n\x60\x60\x60".toList)
          = s ++ "\n\x60\x60\x60".toList from rfl]
      exact stripSuffixFence_append s

/-- Closed instance of the C4 theorem at the payload `[1,2]`. -/
theorem parseJSON_fence_lossless_witness :
    parseJSON ("\x60\x60\x60json\n".toList ++ "[1,2]".toList ++ "\n\x60\x60\x60".toList)
        = Except.ok (Json.arr [Json.num 1, Json.num 2]) ∧
    parseJSON ("\x60\x60\x60\n".toList ++ "[1,2]".toList ++ "\n\x60\x60\x60".toList)
        = Except.ok (Json.arr [Json.num 1, Json.num 2]) :=
  parseJSON_fence_lossless "[1,2]".toList (Json.arr [Json.num 1, Json.num 2])
    rfl rfl rfl

/-- The canned reply of the `why`/`reason` branch of
`generateFallbackResponse`. -/
def whyFallbackReply : String :=
  "That\x27s an insightful question! This topic is important because it impacts how we think about and approach related concepts. Each chunk revealed different layers of understanding."

/-- C5 (amended): in the chat flow with no provider configured, the user
message "why does this matter" produces a deterministic, non-empty reply
computed locally (no provider request is constructed, hence no network
call) — but the reply is a fixed string independent of the story and does
not embed the story title. -/
theorem chat_fallback_why_reply (storyTitle : String) :
    chatResponseFor none "why does this matter" storyTitle
      = ChatTurnResponse.fallback whyFallbackReply ∧ whyFallbackReply ≠ "" :=
  ⟨rfl, by decide⟩

/-- C5 counterexample: at the concrete story title "AI Revolution" the
locally computed reply does not contain the story title, refuting the
claim as stated. -/
theorem chat_fallback_why_reply_counterexample :
    chatResponseFor none "why does this matter" "AI Revolution"
      = ChatTurnResponse.fallback whyFallbackReply ∧
    jsIncludes whyFallbackReply "AI Revolution" = false :=
  ⟨rfl, by decide⟩

/-- C6 (amended): `parseJSON` fails exactly when the fence-stripped text is
not valid JSON; it performs no shape validation of the decoded value —
whatever decodes is returned as-is. Array presence is enforced only
downstream, where mapping over a non-array parsed value throws a
`TypeError`; records missing required fields are never rejected. -/
theorem parseJSON_rejects_only_invalid_json :
    (∀ response, jsonParse (stripFences response) = none →
        parseJSON response = Except.error jsonSyntaxError) ∧
    (∀ response v, jsonParse (stripFences response) = some v →
        parseJSON response = Except.ok v) ∧
    (∀ (lookup : String → Except String String) (response : List Char) (v : Json),
        parseJSON response = Except.ok v → (∀ items, v ≠ Json.arr items) →
        generateStoriesFromHistory lookup response
          = Except.error "TypeError: parsed.map is not a function") := by
  refine ⟨?_, ?_, ?_⟩
  · intro response h
    simp [parseJSON, h]
  · intro response v h
    simp [parseJSON, h]
  · intro lookup response v h hv
    unfold generateStoriesFromHistory
    rw [h]
    cases v with
    | arr items => exact absurd rfl (hv items)
    | null => rfl
    | bool b => rfl
    | num q => rfl
    | str s => rfl
    | obj fields => rfl

/-- Closed instance of the C6 theorem: truncated JSON is rejected, a bare
number is accepted as-is, and a non-array decode fails the story flow at
the map step. -/
theorem parseJSON_rejects_only_invalid_json_witness :
    parseJSON "[".toList = Except.error jsonSyntaxError ∧
    parseJSON "1".toList = Except.ok (Json.num 1) ∧
    generateStoriesFromHistory offlineLookup "\x7b\x7d".toList
      = Except.error "TypeError: parsed.map is not a function" :=
  ⟨parseJSON_rejects_only_invalid_json.1 "[".toList rfl,
   parseJSON_rejects_only_invalid_json.2.1 "1".toList (Json.num 1) rfl,
   parseJSON_rejects_only_invalid_json.2.2 offlineLookup "\x7b\x7d".toList
     (Json.obj []) rfl (fun _ h => Json.noConfusion h)⟩

/-- C6 counterexample: a decoded array whose only record lacks every
required field is returned by `parseJSON`, not rejected; a decoded
non-array object is likewise returned. -/
theorem parseJSON_returns_malformed_shapes_counterexample :
    parseJSON "[\x7b\x7d]".toList = Except.ok (Json.arr [Json.obj []]) ∧
    parseJSON "\x7b\"a\":1\x7d".toList
      = Except.ok (Json.obj [("a", Json.num 1)]) :=
  ⟨rfl, rfl⟩

/-- C7 (amended): all three transports fix the maximum output at 2000
tokens, and OpenAI and Gemini additionally fix temperature 0.7, for every
caller config — but the Anthropic request body contains no temperature
field at all. -/
theorem transport_body_constants (messages : List WireMessage)
    (amessages : List WireMessage) (config : LLMConfig)
    (system prompt : String) :
    (sendToOpenAI messages config).body.lookup "temperature"
        = some (Json.num (7 / 10)) ∧
    (sendToOpenAI messages config).body.lookup "max_tokens"
        = some (Json.num 2000) ∧
    (sendToAnthropic system amessages config).body.lookup "max_tokens"
        = some (Json.num 2000) ∧
    (sendToAnthropic system amessages config).body.lookup "temperature"
        = none ∧
    ((sendToGemini prompt config).body.lookup "generationConfig").bind
        (fun g => g.lookup "temperature") = some (Json.num (7 / 10)) ∧
    ((sendToGemini prompt config).body.lookup "generationConfig").bind
        (fun g => g.lookup "maxOutputTokens") = some (Json.num 2000) :=
  ⟨rfl, rfl, rfl, rfl, rfl, rfl⟩

/-- C7 counterexample: the Anthropic request body built for a concrete
config has no temperature field, so not every transport body contains
temperature 0.7. -/
theorem anthropic_body_lacks_temperature_counterexample :
    (sendToAnthropic "You are a helpful assistant."
        [{ role := "user", content := "hi" }]
        ⟨"anthropic", "key", none⟩).body.lookup "temperature" = none ∧
    (sendToAnthropic "You are a helpful assistant."
        [{ role := "user", content := "hi" }]
        ⟨"anthropic", "key", none⟩).body.lookup "max_tokens"
      = some (Json.num 2000) :=
  ⟨rfl, rfl⟩

/-- C8 (amended): the keyword fallback is the JS `||` chain from the source:
a story record whose `imageKeywords` and legacy `image` fields are absent
(or falsy) falls back to the record's own title — and that is the keyword
string the image is resolved from — while a chunk record in the same
situation falls back to the parent story's `imageKeywords` and then the
parent story's title, never the chunk's own title. -/
theorem imageKeywords_fallback_chain (lookup : String → Except String String)
    (story : Story) (item : Json)
    (h1 : jsTruthy (item.lookup "imageKeywords") = false)
    (h2 : jsTruthy (item.lookup "image") = false) :
    (storyFromRecord lookup item).imageKeywords = item.lookup "title" ∧
    (storyFromRecord lookup item).image
      = getImageForKeywords lookup (jsToString (item.lookup "title")) ∧
    (chunkFromRecord lookup story item).imageKeywords
      = jsOr story.imageKeywords story.title := by
  refine ⟨?_, ?_, ?_⟩ <;>
    simp [storyFromRecord, chunkFromRecord, jsOr, h1, h2]

/-- Closed instance of the C8 theorem: a record carrying only a title
resolves its keywords to that title for stories, and to the parent story's
title for chunks. -/
theorem imageKeywords_fallback_chain_witness :
    (storyFromRecord offlineLookup (Json.obj [("title", Json.str "T")])).imageKeywords
      = some (Json.str "T") ∧
    (chunkFromRecord offlineLookup storyNoKeywords
        (Json.obj [("title", Json.str "T")])).imageKeywords
      = some (Json.str "ST") := by
  have h := imageKeywords_fallback_chain offlineLookup storyNoKeywords
    (Json.obj [("title", Json.str "T")]) rfl rfl
  exact ⟨h.1, h.2.2⟩

/-- C8 counterexample: a story record without `imageKeywords` but with a
legacy `image` field uses the legacy value, not the title; and a chunk
record without `imageKeywords` uses the parent story's title "ST", which
differs from the chunk's own title "CT" — refuting the claim as stated. -/
theorem imageKeywords_fallback_counterexample :
    (storyFromRecord offlineLookup
        (Json.obj [("title", Json.str "T"), ("image", Json.str "legacy")])).imageKeywords
      = some (Json.str "legacy") ∧
    (chunkFromRecord offlineLookup storyNoKeywords
        (Json.obj [("id", Json.num 1), ("title", Json.str "CT"),
          ("content", Json.str "c")])).imageKeywords
      = some (Json.str "ST") ∧
    (chunkFromRecord offlineLookup storyNoKeywords
        (Json.obj [("id", Json.num 1), ("title", Json.str "CT"),
          ("content", Json.str "c")])).title
      = some (Json.str "CT") ∧
    (some (Json.str "ST") : Option Json) ≠ some (Json.str "CT") := by
  refine ⟨rfl, rfl, rfl, ?_⟩
  intro h
  injection h with h1
  injection h1 with h2
  exact absurd h2 (by decide)

/-- C9 (amended): the pipelines copy the provider's `id` field verbatim
into the constructed entities — no monotonically increasing fallback id is
assigned, missing ids stay undefined, and uniqueness within a batch is not
enforced. -/
theorem entity_ids_copied_verbatim (lookup : String → Except String String)
    (story : Story) (response : List Char) (items : List Json)
    (h : parseJSON response = Except.ok (Json.arr items)) :
    (∃ stories, generateStoriesFromHistory lookup response = Except.ok stories ∧
        stories.map Story.id = items.map (fun item => item.lookup "id")) ∧
    (∃ chunks, generateChunksFromStory lookup story response = Except.ok chunks ∧
        chunks.map Chunk.id = items.map (fun item => item.lookup "id")) := by
  constructor
  · refine ⟨items.map (storyFromRecord lookup),
      by simp [generateStoriesFromHistory, h], ?_⟩
    rw [List.map_map]
    rfl
  · refine ⟨items.map (chunkFromRecord lookup story),
      by simp [generateChunksFromStory, h], ?_⟩
    rw [List.map_map]
    rfl

/-- Closed instance of the C9 theorem at a concrete two-record response. -/
theorem entity_ids_copied_verbatim_witness :
    ∃ stories,
      generateStoriesFromHistory offlineLookup
          "[\x7b\"id\":7\x7d,\x7b\"id\":7\x7d]".toList = Except.ok stories ∧
      stories.map Story.id
        = [Json.obj [("id", Json.num 7)], Json.obj [("id", Json.num 7)]].map
            (fun item => item.lookup "id") :=
  (entity_ids_copied_verbatim offlineLookup storyNoKeywords
    "[\x7b\"id\":7\x7d,\x7b\"id\":7\x7d]".toList
    [Json.obj [("id", Json.num 7)], Json.obj [("id", Json.num 7)]] rfl).1

/-- C9 counterexample: a provider response with duplicate ids yields two
stories with the same id (no unique fallback assigned), and a record with
no id at all yields a story whose id is undefined. -/
theorem entity_ids_not_unique_counterexample :
    (generateStoriesFromHistory offlineLookup
        "[\x7b\"id\":1,\"title\":\"A\"\x7d,\x7b\"id\":1,\"title\":\"B\"\x7d]".toList).map
        (fun l => l.map Story.id)
      = Except.ok [some (Json.num 1), some (Json.num 1)] ∧
    (generateStoriesFromHistory offlineLookup "[\x7b\"title\":\"A\"\x7d]".toList).map
        (fun l => l.map Story.id)
      = Except.ok [none] :=
  ⟨rfl, rfl⟩

/-- C10 (confirmed): in the config-parameterized chunk-expansion flow,
every returned chunk's image equals the input story's image — chunks do
not get individually resolved images in that variant. -/
theorem cg1_chunks_inherit_story_image (story : Story) (response : List Char)
    (chunks : List CG1.Chunk)
    (h : CG1.generateChunksFromStory story response = Except.ok chunks) :
    ∀ c ∈ chunks, c.image = story.image := by
  intro c hc
  unfold CG1.generateChunksFromStory at h
  cases hp : parseJSON response with
  | error e => rw [hp] at h; cases h
  | ok v =>
    rw [hp] at h
    cases v with
    | arr items =>
      injection h with h'
      subst h'
      rcases List.mem_map.mp hc with ⟨item, _, rfl⟩
      rfl
    | null => cases h
    | bool b => cases h
    | num q => cases h
    | str s => cases h
    | obj fields => cases h

/-- Closed instance of the C10 theorem at a concrete one-record response. -/
theorem cg1_chunks_inherit_story_image_witness :
    (CG1.chunkFromRecord storyNoKeywords (Json.obj [("id", Json.num 1)])).image
      = storyNoKeywords.image :=
  cg1_chunks_inherit_story_image storyNoKeywords
    "[\x7b\"id\":1\x7d]".toList
    [CG1.chunkFromRecord storyNoKeywords (Json.obj [("id", Json.num 1)])] rfl
    (CG1.chunkFromRecord storyNoKeywords (Json.obj [("id", Json.num 1)]))
    (List.Mem.head _)

/-- Closed instance of the C5 theorem at the story title "Design Systems". -/
theorem chat_fallback_why_reply_witness :
    chatResponseFor none "why does this matter" "Design Systems"
      = ChatTurnResponse.fallback whyFallbackReply ∧ whyFallbackReply ≠ "" :=
  chat_fallback_why_reply "Design Systems"

/-- Closed instance of the C7 theorem at a concrete config and payload. -/
theorem transport_body_constants_witness :
    (sendToOpenAI [{ role := "user", content := "p" }]
        ⟨"openai", "key", none⟩).body.lookup "temperature"
        = some (Json.num (7 / 10)) ∧
    (sendToOpenAI [{ role := "user", content := "p" }]
        ⟨"openai", "key", none⟩).body.lookup "max_tokens"
        = some (Json.num 2000) ∧
    (sendToAnthropic "s" [{ role := "user", content := "p" }]
        ⟨"anthropic", "key", none⟩).body.lookup "max_tokens"
        = some (Json.num 2000) ∧
    (sendToAnthropic "s" [{ role := "user", content := "p" }]
        ⟨"anthropic", "key", none⟩).body.lookup "temperature" = none ∧
    ((sendToGemini "p" ⟨"gemini", "key", none⟩).body.lookup "generationConfig").bind
        (fun g => g.lookup "temperature") = some (Json.num (7 / 10)) ∧
    ((sendToGemini "p" ⟨"gemini", "key", none⟩).body.lookup "generationConfig").bind
        (fun g => g.lookup "maxOutputTokens") = some (Json.num 2000) :=
  transport_body_constants [{ role := "user", content := "p" }]
    [{ role := "user", content := "p" }] ⟨"openai", "key", none⟩ "s" "p"
